import Mathlib

/-!
Verification of the EMIR accuracy-reporting engine described in
`emir-accuracy-report-guide.md` and the infrastructure design documents of
the G20Reporting repository.  The validation and scoring logic of the
repository lives in the guide's SQL queries and JavaScript pseudo-code
(`calculateAccuracyScore`, `getTrafficLightStatus`, the Athena validation
queries) and in the Glue catalog schema (`emir-glue-catalog.ts`).  Each
definition below is a shallow embedding of one of those artifacts; SQL
`NULL` is modelled by `Option`, SQL three-valued comparisons on `NULL`
evaluate to `false` exactly as in the queries, numeric values are exact
rationals, and dates/timestamps are integers on a single day-granularity
timeline.
-/

/-- Finding severities used throughout the guide (phase 5 scoring weights:
CRITICAL = 10, MAJOR = 5, MINOR = 2). -/
inductive Severity
  | CRITICAL
  | MAJOR
  | MINOR
deriving DecidableEq, Repr

/-- Penalty weight of a severity, from guide §5.1 ("Critical errors: -10
points each, Major: -5, Minor: -2"). -/
def severityWeight : Severity → ℚ
  | Severity.CRITICAL => 10
  | Severity.MAJOR => 5
  | Severity.MINOR => 2

/-- One aggregated validation result, as consumed by the scoring engine
(`validationResults.forEach` in guide §5: each result carries an
`errorCount` and a `severity`). -/
structure ValidationResult where
  errorCount : Nat
  severity : Severity
deriving DecidableEq, Repr

/-- Accumulation of `totalPenalty` in `calculateAccuracyScore` (guide §5,
lines 593-607): a fold over the validation results adding
`errorCount * weight` for each result. -/
def totalPenalty (validationResults : List ValidationResult) : ℚ :=
  validationResults.foldl
    (fun acc r =>
      match r.severity with
      | Severity.CRITICAL => acc + (r.errorCount : ℚ) * 10
      | Severity.MAJOR => acc + (r.errorCount : ℚ) * 5
      | Severity.MINOR => acc + (r.errorCount : ℚ) * 2)
    0

/-- `calculateAccuracyScore` from guide §5 (lines 592-615):
`maxPossibleScore = totalRecords * 100`;
`accuracyScore = Math.max(0, ((maxPossibleScore - totalPenalty) / maxPossibleScore) * 100)`. -/
def calculateAccuracyScore (validationResults : List ValidationResult)
    (totalRecords : Nat) : ℚ :=
  let maxPossibleScore : ℚ := (totalRecords : ℚ) * 100
  max 0 (((maxPossibleScore - totalPenalty validationResults) / maxPossibleScore) * 100)

/-- Return value of `getTrafficLightStatus` (guide lines 832-836): a status
string together with a colour code and a message. -/
structure TrafficLight where
  status : String
  color : String
  message : String
deriving DecidableEq, Repr

/-- `getTrafficLightStatus` from guide lines 832-836:
`>= 95` GREEN, `>= 85` AMBER, otherwise RED. -/
def getTrafficLightStatus (accuracyScore : ℚ) : TrafficLight :=
  if accuracyScore ≥ 95 then ⟨"GREEN", "#28a745", "Excellent"⟩
  else if accuracyScore ≥ 85 then ⟨"AMBER", "#ffc107", "Needs Attention"⟩
  else ⟨"RED", "#dc3545", "Critical Issues"⟩

/-- The worked example of the overall-score formula: 1,250 CRITICAL,
5,230 MAJOR and 12,340 MINOR findings. -/
def exampleResults : List ValidationResult :=
  [⟨1250, Severity.CRITICAL⟩, ⟨5230, Severity.MAJOR⟩, ⟨12340, Severity.MINOR⟩]

/-- C2 counterexample: on the worked example the total penalty is indeed
63,330, but the overall score produced by `calculateAccuracyScore` is
99.93667, not 99.9367 as the claim states (the claim's value is a
four-decimal rounding, not the computed value). -/
theorem c2_score_value_counterexample :
    totalPenalty exampleResults = 63330 ∧
    calculateAccuracyScore exampleResults 1000000 ≠ (999367 : ℚ) / 10000 := by
  constructor
  · norm_num [totalPenalty, exampleResults]
  · norm_num [calculateAccuracyScore, totalPenalty, exampleResults]

/-- C2 amended: for totalRecords = 1,000,000 with 1,250 CRITICAL, 5,230
MAJOR and 12,340 MINOR findings, the total penalty is 63,330 and the
overall score is exactly 99.93667 (= 9993667/100000, i.e. 99.9367 after
rounding to four decimal places), which is classified GREEN. -/
theorem c2_overall_score_amended :
    totalPenalty exampleResults = 63330 ∧
    calculateAccuracyScore exampleResults 1000000 = (9993667 : ℚ) / 100000 ∧
    (getTrafficLightStatus (calculateAccuracyScore exampleResults 1000000)).status
      = "GREEN" := by
  refine ⟨by norm_num [totalPenalty, exampleResults], ?_, ?_⟩
  · norm_num [calculateAccuracyScore, totalPenalty, exampleResults]
  · norm_num [getTrafficLightStatus, calculateAccuracyScore, totalPenalty, exampleResults]

/-- C7: for every accuracy score `s`, the traffic light is GREEN when
`s ≥ 95`, AMBER when `85 ≤ s < 95` and RED when `s < 85`; in particular the
boundary values 95 and 85 classify as GREEN and AMBER respectively. -/
theorem c7_traffic_light_confirmed (s : ℚ) :
    (95 ≤ s → (getTrafficLightStatus s).status = "GREEN") ∧
    (85 ≤ s ∧ s < 95 → (getTrafficLightStatus s).status = "AMBER") ∧
    (s < 85 → (getTrafficLightStatus s).status = "RED") := by
  refine ⟨fun h => ?_, fun h => ?_, fun h => ?_⟩
  · simp [getTrafficLightStatus, h]
  · have h95 : ¬ s ≥ 95 := by linarith [h.2]
    simp [getTrafficLightStatus, h95, h.1]
  · have h95 : ¬ s ≥ 95 := by linarith
    have h85 : ¬ s ≥ 85 := by linarith
    simp [getTrafficLightStatus, h95, h85]

/-- Witness for C7 at the boundary inputs 95 and 85. -/
theorem c7_traffic_light_confirmed_witness :
    (getTrafficLightStatus 95).status = "GREEN" ∧
    (getTrafficLightStatus 85).status = "AMBER" :=
  ⟨(c7_traffic_light_confirmed 95).1 (by norm_num),
   (c7_traffic_light_confirmed 85).2.1 ⟨by norm_num, by norm_num⟩⟩

/-- The penalty fold of `calculateAccuracyScore` equals the sum of
`errorCount * severityWeight` over the result list. -/
theorem totalPenalty_eq_sum (rs : List ValidationResult) :
    totalPenalty rs
      = (rs.map (fun r => (r.errorCount : ℚ) * severityWeight r.severity)).sum := by
  have aux : ∀ (l : List ValidationResult) (a : ℚ),
      l.foldl
        (fun acc r =>
          match r.severity with
          | Severity.CRITICAL => acc + (r.errorCount : ℚ) * 10
          | Severity.MAJOR => acc + (r.errorCount : ℚ) * 5
          | Severity.MINOR => acc + (r.errorCount : ℚ) * 2) a
      = a + (l.map (fun r => (r.errorCount : ℚ) * severityWeight r.severity)).sum := by
    intro l
    induction l with
    | nil => intro a; simp
    | cons r t ih =>
        intro a
        rcases r with ⟨c, s⟩
        cases s <;> simp [ih, severityWeight] <;> ring
  simpa using aux rs 0

/-- The penalty accumulated by `calculateAccuracyScore` is monotone in the
error counts when the severities agree pointwise. -/
theorem totalPenalty_mono (rs₁ rs₂ : List ValidationResult)
    (h : List.Forall₂
      (fun a b => a.severity = b.severity ∧ a.errorCount ≤ b.errorCount) rs₁ rs₂) :
    totalPenalty rs₁ ≤ totalPenalty rs₂ := by
  rw [totalPenalty_eq_sum, totalPenalty_eq_sum]
  induction h with
  | nil => simp
  | cons hab hrest ih =>
      rename_i x y l₁ l₂
      simp only [List.map_cons, List.sum_cons]
      have hw : (0 : ℚ) ≤ severityWeight y.severity := by
        cases y.severity <;> simp [severityWeight]
      have hcount : (x.errorCount : ℚ) ≤ (y.errorCount : ℚ) := by exact_mod_cast hab.2
      have hterm : (x.errorCount : ℚ) * severityWeight x.severity
          ≤ (y.errorCount : ℚ) * severityWeight y.severity := by
        rw [hab.1]
        exact mul_le_mul_of_nonneg_right hcount hw
      exact add_le_add hterm ih

/-- C10: the scoring aggregation is monotone non-increasing in the error
counts: if two validation-result lists agree in severities and the second
dominates the first in error counts (pointwise, all others equal), then the
overall accuracy score of the second is at most that of the first. -/
theorem c10_score_monotone (rs₁ rs₂ : List ValidationResult) (totalRecords : Nat)
    (hT : 0 < totalRecords)
    (h : List.Forall₂
      (fun a b => a.severity = b.severity ∧ a.errorCount ≤ b.errorCount) rs₁ rs₂) :
    calculateAccuracyScore rs₂ totalRecords ≤ calculateAccuracyScore rs₁ totalRecords := by
  unfold calculateAccuracyScore
  have hM : (0 : ℚ) < (totalRecords : ℚ) * 100 := by
    have h0 : (0 : ℚ) < (totalRecords : ℚ) := by exact_mod_cast hT
    nlinarith
  have hpen := totalPenalty_mono rs₁ rs₂ h
  apply max_le_max le_rfl
  gcongr

/-- Witness for C10 at a concrete pair of result lists: one additional
CRITICAL error over ten records can only lower the score. -/
theorem c10_score_monotone_witness :
    calculateAccuracyScore [⟨2, Severity.CRITICAL⟩] 10 ≤
      calculateAccuracyScore [⟨1, Severity.CRITICAL⟩] 10 :=
  c10_score_monotone [⟨1, Severity.CRITICAL⟩] [⟨2, Severity.CRITICAL⟩] 10
    (by norm_num)
    (List.Forall₂.cons ⟨rfl, by norm_num⟩ List.Forall₂.nil)

/-- Possible failures of the schema loader contract (spec §4.1:
`load(version) -> Schema` fails with `SchemaLoadError` if the field count
is not 203 or duplicate names exist). -/
inductive SchemaLoadError
  | wrongFieldCount
  | duplicateNames
deriving DecidableEq, Repr

/-- The field list returned by `getEmirFieldSchema` in
`lib/emir-glue-catalog.ts` (lines 95-289), as `(name, type)` pairs, in
source order.  The partition keys `year`/`month`/`day` are declared
separately in the table definition and are not part of this list. -/
def emirFieldSchema : List (String × String) := [
  ("uti", "string"),
  ("report_tracking_number", "string"),
  ("counterparty_1", "string"),
  ("counterparty_2", "string"),
  ("report_submitting_entity_id", "string"),
  ("entity_responsible_reporting", "string"),
  ("action_type", "string"),
  ("event_type", "string"),
  ("event_date", "date"),
  ("execution_timestamp", "timestamp"),
  ("effective_date", "date"),
  ("expiration_date", "date"),
  ("early_termination_date", "date"),
  ("direction", "string"),
  ("venue_identification", "string"),
  ("master_agreement_type", "string"),
  ("isin", "string"),
  ("upi", "string"),
  ("asset_class", "string"),
  ("product_classification", "string"),
  ("product_name", "string"),
  ("underlying_isin", "string"),
  ("underlying_index", "string"),
  ("underlying_currency", "string"),
  ("notional_currency_1", "string"),
  ("notional_amount_1", "decimal(18,2)"),
  ("notional_currency_2", "string"),
  ("notional_amount_2", "decimal(18,2)"),
  ("price_currency", "string"),
  ("price", "decimal(18,6)"),
  ("price_notation", "string"),
  ("cleared", "boolean"),
  ("central_counterparty", "string"),
  ("clearing_timestamp", "timestamp"),
  ("clearing_obligation", "boolean"),
  ("clearing_threshold", "boolean"),
  ("clearing_member", "string"),
  ("intragroup", "boolean"),
  ("post_trade_risk_reduction", "boolean"),
  ("settlement_date", "date"),
  ("settlement_currency", "string"),
  ("counterparty_1_nature", "string"),
  ("counterparty_2_nature", "string"),
  ("counterparty_1_sector", "string"),
  ("counterparty_2_sector", "string"),
  ("counterparty_1_country", "string"),
  ("counterparty_2_country", "string"),
  ("execution_agent_id", "string"),
  ("execution_agent_country", "string"),
  ("broker_id", "string"),
  ("broker_country", "string"),
  ("trading_capacity", "string"),
  ("beneficiary_id", "string"),
  ("directly_linked_to_commercial_activity", "boolean"),
  ("collateralisation", "string"),
  ("collateral_portfolio", "boolean"),
  ("valuation_amount", "decimal(18,2)"),
  ("valuation_currency", "string"),
  ("valuation_timestamp", "timestamp"),
  ("valuation_method", "string"),
  ("delta", "decimal(10,6)"),
  ("report_timestamp", "timestamp"),
  ("report_status", "string"),
  ("level", "string"),
  ("confirmation_means", "string"),
  ("confirmation_timestamp", "timestamp"),
  ("prior_uti", "string"),
  ("subsequent_position", "boolean"),
  ("option_type", "string"),
  ("option_style", "string"),
  ("option_exercise_date", "date"),
  ("strike_price", "decimal(18,6)"),
  ("strike_price_currency", "string"),
  ("strike_price_notation", "string"),
  ("delivery_type", "string"),
  ("barrier_type", "string"),
  ("barrier_level", "decimal(18,6)"),
  ("premium_amount", "decimal(18,2)"),
  ("leg1_fixed_rate", "decimal(10,6)"),
  ("leg1_floating_rate", "string"),
  ("leg1_floating_rate_term", "string"),
  ("leg1_floating_rate_reset_frequency", "string"),
  ("leg1_payment_frequency", "string"),
  ("leg1_payment_dates", "string"),
  ("leg1_spread", "decimal(10,6)"),
  ("leg1_day_count_convention", "string"),
  ("leg1_notional_amount", "decimal(18,2)"),
  ("leg1_notional_currency", "string"),
  ("leg1_notional_schedule", "string"),
  ("leg1_initial_exchange", "boolean"),
  ("leg1_final_exchange", "boolean"),
  ("leg1_payer", "string"),
  ("leg1_receiver", "string"),
  ("leg2_fixed_rate", "decimal(10,6)"),
  ("leg2_floating_rate", "string"),
  ("leg2_floating_rate_term", "string"),
  ("leg2_floating_rate_reset_frequency", "string"),
  ("leg2_payment_frequency", "string"),
  ("leg2_payment_dates", "string"),
  ("leg2_spread", "decimal(10,6)"),
  ("leg2_day_count_convention", "string"),
  ("leg2_notional_amount", "decimal(18,2)"),
  ("leg2_notional_currency", "string"),
  ("leg2_notional_schedule", "string"),
  ("leg2_initial_exchange", "boolean"),
  ("leg2_final_exchange", "boolean"),
  ("leg2_payer", "string"),
  ("leg2_receiver", "string"),
  ("initial_margin_posted", "decimal(18,2)"),
  ("initial_margin_received", "decimal(18,2)"),
  ("variation_margin_posted", "decimal(18,2)"),
  ("variation_margin_received", "decimal(18,2)"),
  ("margin_currency", "string"),
  ("collateral_type", "string"),
  ("collateral_value", "decimal(18,2)"),
  ("collateral_currency", "string"),
  ("segregation_type", "string"),
  ("excess_collateral", "decimal(18,2)"),
  ("collateral_quality", "string"),
  ("rehypothecation", "boolean"),
  ("exchange_rate", "decimal(10,6)"),
  ("exchange_rate_basis", "string"),
  ("package_indicator", "boolean"),
  ("package_transaction_price", "decimal(18,6)"),
  ("contingent_event", "string"),
  ("compression_indicator", "boolean"),
  ("price_accuracy", "string"),
  ("execution_venue", "string"),
  ("hybrid_indicator", "boolean"),
  ("cross_currency_indicator", "boolean"),
  ("fixed_float_indicator", "string"),
  ("fixed_rate_day_count", "string"),
  ("floating_rate_day_count", "string"),
  ("embedded_option", "boolean"),
  ("optional_termination_date", "date"),
  ("spread_notation", "string"),
  ("index_factor", "decimal(10,6)"),
  ("attachment_point", "decimal(10,4)"),
  ("detachment_point", "decimal(10,4)"),
  ("quantity", "decimal(18,2)"),
  ("quantity_unit", "string"),
  ("delivery_point", "string"),
  ("load_type", "string"),
  ("delivery_start_date", "date"),
  ("delivery_end_date", "date"),
  ("duration", "string"),
  ("frequency", "string"),
  ("commodity_base", "string"),
  ("commodity_details", "string"),
  ("notional_amount_schedule", "string"),
  ("step_up_step_down", "boolean"),
  ("callable_puttable", "string"),
  ("knock_in_out", "string"),
  ("reference_entity", "string"),
  ("reference_obligation", "string"),
  ("seniority", "string"),
  ("index_series", "string"),
  ("index_version", "string"),
  ("tranche", "string"),
  ("basket_identifier", "string"),
  ("basket_constituents", "string"),
  ("custom_basket", "boolean"),
  ("settlement_location", "string"),
  ("transaction_id", "string"),
  ("venue_transaction_id", "string"),
  ("platform", "string"),
  ("taxonomy", "string"),
  ("additional_data", "string")]

/-- Modelled from the spec: the Schema Registry loader (spec §4.1).  The
repository contains no loader implementation (only the Glue catalog data
and its comments); the spec's contract is: fail with `SchemaLoadError`
when the field count differs from 203 or when names are duplicated,
otherwise return the schema unchanged. -/
def loadSchema (fields : List (String × String)) :
    Except SchemaLoadError (List (String × String)) :=
  if fields.length ≠ 203 then Except.error SchemaLoadError.wrongFieldCount
  else if ¬ (fields.map Prod.fst).Nodup then Except.error SchemaLoadError.duplicateNames
  else Except.ok fields

set_option maxRecDepth 4000 in
/-- C1: the schema actually defined by `getEmirFieldSchema` has 168 fields,
not the 203 announced by the construct's own comments and table
description; the names are pairwise distinct; and the spec's loader
contract rejects this schema with a `SchemaLoadError`. -/
theorem c1_schema_field_count_bug :
    emirFieldSchema.length = 168 ∧
    emirFieldSchema.length ≠ 203 ∧
    (emirFieldSchema.map Prod.fst).Nodup ∧
    loadSchema emirFieldSchema = Except.error SchemaLoadError.wrongFieldCount := by
  have hlen : emirFieldSchema.length = 168 := by rfl
  refine ⟨hlen, by simp [hlen], by decide, ?_⟩
  simp [loadSchema, hlen]

/-- Projection of an `emir_trades` row onto the columns read by the
completeness, logical-validation and scoring queries.  `none` is SQL
`NULL`; dates and timestamps are integers on one day-granularity timeline;
boolean columns carry the raw strings that the queries compare against
(`cleared = 'true'`). -/
structure EmirRecord where
  uti : Option String := none
  report_tracking_number : Option String := none
  counterparty_1 : Option String := none
  counterparty_2 : Option String := none
  report_submitting_entity_id : Option String := none
  entity_responsible_reporting : Option String := none
  action_type : Option String := none
  event_type : Option String := none
  event_date : Option Int := none
  execution_timestamp : Option Int := none
  effective_date : Option Int := none
  expiration_date : Option Int := none
  early_termination_date : Option Int := none
  direction : Option String := none
  isin : Option String := none
  upi : Option String := none
  asset_class : Option String := none
  product_classification : Option String := none
  notional_amount_1 : Option ℚ := none
  notional_currency_1 : Option String := none
  valuation_amount : Option ℚ := none
  valuation_currency : Option String := none
  cleared : Option String := none
  central_counterparty : Option String := none
  clearing_timestamp : Option Int := none
  clearing_obligation : Option String := none
  option_type : Option String := none
  option_style : Option String := none
  strike_price : Option ℚ := none
  leg1_fixed_rate : Option ℚ := none
  leg1_floating_rate : Option String := none
  leg2_fixed_rate : Option ℚ := none
  leg2_floating_rate : Option String := none
deriving DecidableEq, Repr

/-- SQL comparison `a > b` on nullable integers: a `NULL` operand makes the
predicate false, as in Athena's three-valued logic. -/
def optGt (a b : Option Int) : Bool :=
  match a, b with
  | some x, some y => decide (y < x)
  | _, _ => false

/-- SQL comparison `a >= b` on nullable integers, false when an operand is
`NULL`. -/
def optGe (a b : Option Int) : Bool :=
  match a, b with
  | some x, some y => decide (y ≤ x)
  | _, _ => false

/-- Last disjunct of the `DATE_SEQUENCE_ERROR` query (guide lines 463-467):
`cleared = 'true' AND clearing_timestamp IS NOT NULL AND
ABS(DATE_DIFF('day', execution_timestamp, clearing_timestamp)) > 5`. -/
def clearingGapViolation (r : EmirRecord) : Bool :=
  (r.cleared == some "true") &&
    match r.clearing_timestamp, r.execution_timestamp with
    | some ct, some et => decide (5 < (ct - et).natAbs)
    | _, _ => false

/-- The `DATE_SEQUENCE_ERROR` predicate of the logical-validation query
(guide lines 447-468): execution timestamp after effective date, or
effective date after expiration date, or early termination date on or
after expiration date, or the clearing-timestamp gap for cleared trades. -/
def dateSequenceViolation (r : EmirRecord) : Bool :=
  optGt r.execution_timestamp r.effective_date ||
  optGt r.effective_date r.expiration_date ||
  optGe r.early_termination_date r.expiration_date ||
  clearingGapViolation r

/-- The `CLEARING_LOGIC_ERROR` predicate (guide lines 470-483). -/
def clearingLogicViolation (r : EmirRecord) : Bool :=
  ((r.cleared == some "true") &&
    (r.central_counterparty == none || r.central_counterparty == some "")) ||
  ((r.cleared == some "true") && r.clearing_timestamp.isNone) ||
  ((r.clearing_obligation == some "true") && (r.cleared == some "false"))

/-- The notional/valuation consistency predicate (guide lines 485-502):
amount without currency, currency without amount, amount below 0 or above
one trillion, or valuation amount without valuation currency. -/
def notionalConsistencyViolation (r : EmirRecord) : Bool :=
  (r.notional_amount_1.isSome && r.notional_currency_1.isNone) ||
  (r.notional_amount_1.isNone && r.notional_currency_1.isSome) ||
  (match r.notional_amount_1 with
   | some a => decide (a < 0)
   | none => false) ||
  (match r.notional_amount_1 with
   | some a => decide (1000000000000 < a)
   | none => false) ||
  (r.valuation_amount.isSome && r.valuation_currency.isNone)

/-- The `OPTION_INCOMPLETE_DATA` predicate (guide lines 504-516). -/
def optionIncompleteViolation (r : EmirRecord) : Bool :=
  (r.asset_class == some "OPTION") &&
  ((r.option_type.isSome && (r.option_style.isNone || r.strike_price.isNone)) ||
   (r.option_style.isSome && (r.option_type.isNone || r.strike_price.isNone)) ||
   (r.strike_price.isSome && (r.option_type.isNone || r.option_style.isNone)))

/-- The swap-leg predicate (guide lines 518-533): a leg is reported when it
has both a fixed and a floating rate, or neither. -/
def swapLegViolation (r : EmirRecord) : Bool :=
  (r.asset_class == some "SWAP") &&
  (((r.leg1_fixed_rate.isSome && r.leg1_floating_rate.isSome) ||
    (r.leg1_fixed_rate.isNone && r.leg1_floating_rate.isNone)) ||
   ((r.leg2_fixed_rate.isSome && r.leg2_floating_rate.isSome) ||
    (r.leg2_fixed_rate.isNone && r.leg2_floating_rate.isNone)))

/-- One validation finding: phase, rule identifier and severity. -/
structure Finding where
  phase : String
  ruleId : String
  severity : Severity
deriving DecidableEq, Repr

/-- Findings emitted by the logical validator (guide Phase 4), one per
firing rule.  The CRITICAL severity of `DATE_SEQUENCE_ERROR` comes from
the guide's storage pattern (`SK: LOGICAL#DATE_SEQUENCE`,
`severity: CRITICAL`).  Modelled from the spec: the guide's queries do not
assign severities to the remaining logical rules; spec §4.4 fixes them as
MAJOR (clearing, notional, option and swap consistency). -/
def logicalFindings (r : EmirRecord) : List Finding :=
  (if dateSequenceViolation r then
    [⟨"LOGICAL", "DATE_SEQUENCE_ERROR", Severity.CRITICAL⟩] else []) ++
  (if clearingLogicViolation r then
    [⟨"LOGICAL", "CLEARING_LOGIC_ERROR", Severity.MAJOR⟩] else []) ++
  (if notionalConsistencyViolation r then
    [⟨"LOGICAL", "NOTIONAL_CONSISTENCY_ERROR", Severity.MAJOR⟩] else []) ++
  (if optionIncompleteViolation r then
    [⟨"LOGICAL", "OPTION_INCOMPLETE_DATA", Severity.MAJOR⟩] else []) ++
  (if swapLegViolation r then
    [⟨"LOGICAL", "SWAP_LEG_ERROR", Severity.MAJOR⟩] else [])

/-- Membership in a conditionally empty list. -/
theorem mem_ite_nil {α : Type} (a : α) (c : Prop) [Decidable c] (l : List α) :
    a ∈ (if c then l else []) ↔ c ∧ a ∈ l := by
  split <;> simp_all

theorem optGt_eq_true (a b : Option Int) :
    optGt a b = true ↔ ∃ x y, a = some x ∧ b = some y ∧ y < x := by
  cases a <;> cases b <;> simp [optGt]

theorem optGe_eq_true (a b : Option Int) :
    optGe a b = true ↔ ∃ x y, a = some x ∧ b = some y ∧ y ≤ x := by
  cases a <;> cases b <;> simp [optGe]

theorem clearingGapViolation_eq_true (r : EmirRecord) :
    clearingGapViolation r = true ↔
      r.cleared = some "true" ∧
        ∃ c e, r.clearing_timestamp = some c ∧ r.execution_timestamp = some e ∧
          5 < (c - e).natAbs := by
  rcases hct : r.clearing_timestamp with _ | ct <;>
    rcases het : r.execution_timestamp with _ | et <;>
    simp [clearingGapViolation, hct, het]

theorem dateSeq_mem_iff (r : EmirRecord) :
    (⟨"LOGICAL", "DATE_SEQUENCE_ERROR", Severity.CRITICAL⟩ : Finding) ∈ logicalFindings r
      ↔ dateSequenceViolation r = true := by
  simp [logicalFindings, mem_ite_nil]

theorem dateSequenceViolation_eq_true (r : EmirRecord) :
    dateSequenceViolation r = true ↔
      (∃ e f, r.execution_timestamp = some e ∧ r.effective_date = some f ∧ f < e) ∨
      (∃ f x, r.effective_date = some f ∧ r.expiration_date = some x ∧ x < f) ∨
      (∃ d x, r.early_termination_date = some d ∧ r.expiration_date = some x ∧ x ≤ d) ∨
      (r.cleared = some "true" ∧
        ∃ c e, r.clearing_timestamp = some c ∧ r.execution_timestamp = some e ∧
          5 < (c - e).natAbs) := by
  simp [dateSequenceViolation, Bool.or_eq_true, optGt_eq_true, optGe_eq_true,
    clearingGapViolation_eq_true, or_assoc]

/-- When the date-sequence rule fires, it contributes the only CRITICAL
finding of the logical validator (all other logical rules are MAJOR). -/
theorem filter_crit_logicalFindings (r : EmirRecord)
    (h : dateSequenceViolation r = true) :
    (logicalFindings r).filter (fun fd => fd.severity == Severity.CRITICAL)
      = [⟨"LOGICAL", "DATE_SEQUENCE_ERROR", Severity.CRITICAL⟩] := by
  unfold logicalFindings
  rcases h2 : clearingLogicViolation r <;> rcases h3 : notionalConsistencyViolation r <;>
    rcases h4 : optionIncompleteViolation r <;> rcases h5 : swapLegViolation r <;>
    simp only [h, h2, h3, h4, h5] <;> decide

/-- A cleared trade whose dates are perfectly ordered but whose clearing
timestamp is ten days after execution. -/
def gapOnlyRecord : EmirRecord :=
  { execution_timestamp := some 0, effective_date := some 0,
    expiration_date := some 100, cleared := some "true",
    clearing_timestamp := some 10 }

/-- C4 counterexample: `gapOnlyRecord` satisfies every date ordering the
claim lists (execution ≤ effective ≤ expiration, no early termination),
yet the query's fourth disjunct — clearing timestamp more than five days
from execution on a cleared trade — still produces the CRITICAL
`DATE_SEQUENCE_ERROR` finding, so the claim's "if and only if" is false on
this record. -/
theorem c4_date_sequence_counterexample :
    gapOnlyRecord.execution_timestamp = some 0 ∧
    gapOnlyRecord.effective_date = some 0 ∧
    gapOnlyRecord.expiration_date = some 100 ∧
    gapOnlyRecord.early_termination_date = none ∧
    ((0 : Int) ≤ 0 ∧ (0 : Int) ≤ 100) ∧
    (⟨"LOGICAL", "DATE_SEQUENCE_ERROR", Severity.CRITICAL⟩ : Finding)
      ∈ logicalFindings gapOnlyRecord := by
  refine ⟨rfl, rfl, rfl, rfl, by decide, by decide⟩

/-- C4 amended: a record receives the CRITICAL `DATE_SEQUENCE_ERROR`
finding from the logical validator if and only if it violates
executionTimestamp ≤ effectiveDate, or effectiveDate ≤ expirationDate, or
(when present) earlyTerminationDate < expirationDate, or it is a cleared
trade whose clearing timestamp differs from the execution timestamp by
more than five days; and every record whose execution timestamp is later
than its effective date receives exactly one CRITICAL LOGICAL finding,
with ruleId `DATE_SEQUENCE_ERROR`. -/
theorem c4_date_sequence_amended (r : EmirRecord) :
    ((⟨"LOGICAL", "DATE_SEQUENCE_ERROR", Severity.CRITICAL⟩ : Finding) ∈ logicalFindings r ↔
      (∃ e f, r.execution_timestamp = some e ∧ r.effective_date = some f ∧ f < e) ∨
      (∃ f x, r.effective_date = some f ∧ r.expiration_date = some x ∧ x < f) ∨
      (∃ d x, r.early_termination_date = some d ∧ r.expiration_date = some x ∧ x ≤ d) ∨
      (r.cleared = some "true" ∧
        ∃ c e, r.clearing_timestamp = some c ∧ r.execution_timestamp = some e ∧
          5 < (c - e).natAbs)) ∧
    (∀ e f, r.execution_timestamp = some e → r.effective_date = some f → f < e →
      (logicalFindings r).filter (fun fd => fd.severity == Severity.CRITICAL)
        = [⟨"LOGICAL", "DATE_SEQUENCE_ERROR", Severity.CRITICAL⟩]) := by
  constructor
  · exact (dateSeq_mem_iff r).trans (dateSequenceViolation_eq_true r)
  · intro e f he hf hlt
    exact filter_crit_logicalFindings r
      ((dateSequenceViolation_eq_true r).mpr (Or.inl ⟨e, f, he, hf, hlt⟩))

/-- A record whose execution timestamp (day 5) is later than its effective
date (day 3). -/
def lateExecutionRecord : EmirRecord :=
  { execution_timestamp := some 5, effective_date := some 3 }

/-- Witness for C4 on `lateExecutionRecord`. -/
theorem c4_date_sequence_amended_witness :
    (logicalFindings lateExecutionRecord).filter
        (fun fd => fd.severity == Severity.CRITICAL)
      = [⟨"LOGICAL", "DATE_SEQUENCE_ERROR", Severity.CRITICAL⟩] :=
  (c4_date_sequence_amended lateExecutionRecord).2 5 3 rfl rfl (by norm_num)

theorem notional_mem_iff (r : EmirRecord) :
    (⟨"LOGICAL", "NOTIONAL_CONSISTENCY_ERROR", Severity.MAJOR⟩ : Finding)
        ∈ logicalFindings r
      ↔ notionalConsistencyViolation r = true := by
  simp [logicalFindings, mem_ite_nil]

theorem notionalConsistencyViolation_eq_true (r : EmirRecord) :
    notionalConsistencyViolation r = true ↔
      ((∃ a, r.notional_amount_1 = some a) ∧ r.notional_currency_1 = none) ∨
      (r.notional_amount_1 = none ∧ ∃ c, r.notional_currency_1 = some c) ∨
      (∃ a, r.notional_amount_1 = some a ∧ a < 0) ∨
      (∃ a, r.notional_amount_1 = some a ∧ 1000000000000 < a) ∨
      ((∃ v, r.valuation_amount = some v) ∧ r.valuation_currency = none) := by
  rcases ha : r.notional_amount_1 with _ | a <;>
    rcases hc : r.notional_currency_1 with _ | c <;>
    rcases hv : r.valuation_amount with _ | v <;>
    rcases hw : r.valuation_currency with _ | w <;>
    simp [notionalConsistencyViolation, ha, hc, hv, hw, or_assoc]

/-- A record with a consistent, in-range notional leg but a valuation
amount that lacks a valuation currency. -/
def valuationGapRecord : EmirRecord :=
  { notional_amount_1 := some 1000, notional_currency_1 := some "EUR",
    valuation_amount := some 500 }

/-- C8 counterexample: `valuationGapRecord` has notional amount and
currency both present with the amount inside [0, 1e12], so the claim says
it receives no notional-consistency finding; the query's valuation
disjunct (`valuation_amount IS NOT NULL AND valuation_currency IS NULL`)
still emits one. -/
theorem c8_notional_counterexample :
    valuationGapRecord.notional_amount_1 = some 1000 ∧
    valuationGapRecord.notional_currency_1 = some "EUR" ∧
    ((0 : ℚ) ≤ 1000 ∧ (1000 : ℚ) ≤ 1000000000000) ∧
    (⟨"LOGICAL", "NOTIONAL_CONSISTENCY_ERROR", Severity.MAJOR⟩ : Finding)
      ∈ logicalFindings valuationGapRecord := by
  refine ⟨rfl, rfl, by norm_num, ?_⟩
  rw [notional_mem_iff, notionalConsistencyViolation_eq_true]
  exact Or.inr (Or.inr (Or.inr (Or.inr ⟨⟨500, rfl⟩, rfl⟩)))

/-- C8 amended: a record receives the MAJOR notional-consistency finding
exactly when the notional amount is present without the notional currency,
or the currency is present without the amount, or the amount lies outside
[0, 1e12], or the valuation amount is present without the valuation
currency; consequently a record whose notional amount and currency are
both present with the amount in range (or both absent) and whose valuation
fields are consistent receives no such finding. -/
theorem c8_notional_amended (r : EmirRecord) :
    ((⟨"LOGICAL", "NOTIONAL_CONSISTENCY_ERROR", Severity.MAJOR⟩ : Finding)
        ∈ logicalFindings r ↔
      ((∃ a, r.notional_amount_1 = some a) ∧ r.notional_currency_1 = none) ∨
      (r.notional_amount_1 = none ∧ ∃ c, r.notional_currency_1 = some c) ∨
      (∃ a, r.notional_amount_1 = some a ∧ a < 0) ∨
      (∃ a, r.notional_amount_1 = some a ∧ 1000000000000 < a) ∨
      ((∃ v, r.valuation_amount = some v) ∧ r.valuation_currency = none)) ∧
    (((r.notional_amount_1 = none ∧ r.notional_currency_1 = none) ∨
        (∃ a c, r.notional_amount_1 = some a ∧ r.notional_currency_1 = some c ∧
          0 ≤ a ∧ a ≤ 1000000000000)) →
      (∀ v, r.valuation_amount = some v → ∃ w, r.valuation_currency = some w) →
      (⟨"LOGICAL", "NOTIONAL_CONSISTENCY_ERROR", Severity.MAJOR⟩ : Finding)
        ∉ logicalFindings r) := by
  have hiff := (notional_mem_iff r).trans (notionalConsistencyViolation_eq_true r)
  refine ⟨hiff, ?_⟩
  intro hok hval hmem
  rcases hiff.mp hmem with h | h | h | h | h
  · rcases hok with ⟨hn, _⟩ | ⟨a, c, _, hc, _⟩
    · rcases h.1 with ⟨a, ha⟩
      rw [hn] at ha
      exact Option.noConfusion ha
    · rw [hc] at h
      exact Option.noConfusion h.2
  · rcases hok with ⟨_, hc⟩ | ⟨a, c, ha, _, _⟩
    · rcases h.2 with ⟨c, hcs⟩
      rw [hc] at hcs
      exact Option.noConfusion hcs
    · rw [ha] at h
      exact Option.noConfusion h.1
  · rcases h with ⟨a, ha, hneg⟩
    rcases hok with ⟨hn, _⟩ | ⟨b, c, hb, _, hb0, _⟩
    · rw [hn] at ha
      exact Option.noConfusion ha
    · rw [hb] at ha
      injection ha with hba
      exact absurd hneg (by rw [hba] at hb0; linarith)
  · rcases h with ⟨a, ha, hbig⟩
    rcases hok with ⟨hn, _⟩ | ⟨b, c, hb, _, _, hb1⟩
    · rw [hn] at ha
      exact Option.noConfusion ha
    · rw [hb] at ha
      injection ha with hba
      exact absurd hbig (by rw [hba] at hb1; linarith)
  · rcases h.1 with ⟨v, hv⟩
    rcases hval v hv with ⟨w, hw⟩
    rw [hw] at h
    exact Option.noConfusion h.2

/-- A fully consistent record used as the C8 witness input. -/
def consistentNotionalRecord : EmirRecord :=
  { notional_amount_1 := some 1000, notional_currency_1 := some "EUR" }

/-- Witness for C8: a record with amount and currency present and the
amount in range receives no notional-consistency finding. -/
theorem c8_notional_amended_witness :
    (⟨"LOGICAL", "NOTIONAL_CONSISTENCY_ERROR", Severity.MAJOR⟩ : Finding)
      ∉ logicalFindings consistentNotionalRecord :=
  (c8_notional_amended consistentNotionalRecord).2
    (Or.inr ⟨1000, "EUR", rfl, rfl, by norm_num, by norm_num⟩)
    (fun v hv => Option.noConfusion hv)

/-- The "missing" test of the completeness queries (guide line 199):
`x IS NULL OR x = ''`. -/
def isMissing (v : Option String) : Bool :=
  v.isNone || v == some ""

/-- Singleton or empty finding list for one mandatory-field check. -/
def missingFinding (fieldName : String) (sev : Severity) (missing : Bool) :
    List Finding :=
  if missing then [⟨"COMPLETENESS", fieldName, sev⟩] else []

/-- Completeness findings per record over the mandatory fields of guide
§2.1 (critical identifiers, critical trade information, product
information; "ISIN or UPI: at least one required").  A field is missing
when it is NULL or the empty string, per the guide's queries.  Modelled
from the spec: the guide's queries record a severity per field but do not
list the assignment; spec §4.2 fixes CRITICAL for identifier-category
fields and MAJOR for the other mandatory fields. -/
def completenessFindings (r : EmirRecord) : List Finding :=
  missingFinding "uti" Severity.CRITICAL (isMissing r.uti) ++
  missingFinding "report_tracking_number" Severity.CRITICAL
    (isMissing r.report_tracking_number) ++
  missingFinding "counterparty_1" Severity.CRITICAL (isMissing r.counterparty_1) ++
  missingFinding "counterparty_2" Severity.CRITICAL (isMissing r.counterparty_2) ++
  missingFinding "report_submitting_entity_id" Severity.CRITICAL
    (isMissing r.report_submitting_entity_id) ++
  missingFinding "entity_responsible_reporting" Severity.CRITICAL
    (isMissing r.entity_responsible_reporting) ++
  missingFinding "action_type" Severity.MAJOR (isMissing r.action_type) ++
  missingFinding "event_type" Severity.MAJOR (isMissing r.event_type) ++
  missingFinding "event_date" Severity.MAJOR r.event_date.isNone ++
  missingFinding "execution_timestamp" Severity.MAJOR r.execution_timestamp.isNone ++
  missingFinding "direction" Severity.MAJOR (isMissing r.direction) ++
  missingFinding "isin_or_upi" Severity.MAJOR (isMissing r.isin && isMissing r.upi) ++
  missingFinding "asset_class" Severity.MAJOR (isMissing r.asset_class) ++
  missingFinding "product_classification" Severity.MAJOR
    (isMissing r.product_classification)

/-- Penalty points carried by a list of findings: the sum of the severity
weights. -/
def findingsPenalty (fs : List Finding) : ℚ :=
  (fs.map (fun f => severityWeight f.severity)).sum

/-- `total_penalty` of the `emir_record_scores` query (guide lines
620-648): the displayed completeness CASE terms (`IS NULL`, 10 points each
for uti, counterparty_1 and action_type; the query elides the remaining
terms behind `-- ... etc`) plus the joined format and logical penalty
points (`COALESCE(..., 0)`). -/
def recordTotalPenalty (r : EmirRecord) (fmtPenalty logPenalty : ℚ) : ℚ :=
  (if r.uti = none then 10 else 0) +
  (if r.counterparty_1 = none then 10 else 0) +
  (if r.action_type = none then 10 else 0) +
  fmtPenalty + logPenalty

/-- `accuracy_score` of the `emir_record_scores` query:
`GREATEST(0, 100 - total_penalty)`. -/
def recordAccuracyScore (r : EmirRecord) (fmtFindings logFindings : List Finding) : ℚ :=
  max 0 (100 - recordTotalPenalty r (findingsPenalty fmtFindings)
    (findingsPenalty logFindings))

theorem findingsPenalty_nonneg (fs : List Finding) : 0 ≤ findingsPenalty fs := by
  apply List.sum_nonneg
  intro x hx
  rcases List.mem_map.mp hx with ⟨f, _, hf⟩
  cases hfs : f.severity <;> rw [← hf] <;> simp [severityWeight, hfs]

/-- C9: for every record and every pair of format/logical finding sets,
the total penalty is nonnegative, the record accuracy score lies in
[0, 100], and the score equals clamp(100 − penalty, 0, 100). -/
theorem c9_record_score_bounds (r : EmirRecord)
    (fmtFindings logFindings : List Finding) :
    0 ≤ recordTotalPenalty r (findingsPenalty fmtFindings)
      (findingsPenalty logFindings) ∧
    0 ≤ recordAccuracyScore r fmtFindings logFindings ∧
    recordAccuracyScore r fmtFindings logFindings ≤ 100 ∧
    recordAccuracyScore r fmtFindings logFindings
      = min 100 (max 0 (100 - recordTotalPenalty r (findingsPenalty fmtFindings)
          (findingsPenalty logFindings))) := by
  have h1 : (0 : ℚ) ≤ (if r.uti = none then 10 else 0) := by split <;> norm_num
  have h2 : (0 : ℚ) ≤ (if r.counterparty_1 = none then 10 else 0) := by
    split <;> norm_num
  have h3 : (0 : ℚ) ≤ (if r.action_type = none then 10 else 0) := by split <;> norm_num
  have hf := findingsPenalty_nonneg fmtFindings
  have hg := findingsPenalty_nonneg logFindings
  have hpen : 0 ≤ recordTotalPenalty r (findingsPenalty fmtFindings)
      (findingsPenalty logFindings) := by
    unfold recordTotalPenalty
    linarith
  have hscore_le : recordAccuracyScore r fmtFindings logFindings ≤ 100 := by
    unfold recordAccuracyScore
    apply max_le (by norm_num) (by linarith)
  refine ⟨hpen, le_max_left 0 _, hscore_le, ?_⟩
  exact (min_eq_right hscore_le).symm

theorem ne_none_of_isMissing_eq_false {v : Option String}
    (h : isMissing v = false) : v ≠ none := by
  intro hn
  rw [hn] at h
  simp [isMissing] at h

/-- C5 amended: a record whose counterparty_1 is NULL and that is
otherwise fully populated receives exactly one COMPLETENESS finding, of
severity CRITICAL (weight 10 points), and its record-level accuracy score
from the `emir_record_scores` query is exactly 90.  (The score of 90
requires counterparty_1 to be SQL NULL: the scoring query tests `IS NULL`
only, so an empty-string counterparty_1 keeps the score at 100 even
though the completeness finding is still emitted.) -/
theorem c5_missing_counterparty_amended (r : EmirRecord)
    (h1 : r.counterparty_1 = none)
    (h2 : isMissing r.uti = false)
    (h3 : isMissing r.report_tracking_number = false)
    (h4 : isMissing r.counterparty_2 = false)
    (h5 : isMissing r.report_submitting_entity_id = false)
    (h6 : isMissing r.entity_responsible_reporting = false)
    (h7 : isMissing r.action_type = false)
    (h8 : isMissing r.event_type = false)
    (h9 : r.event_date.isNone = false)
    (h10 : r.execution_timestamp.isNone = false)
    (h11 : isMissing r.direction = false)
    (h12 : isMissing r.isin = false)
    (h13 : isMissing r.asset_class = false)
    (h14 : isMissing r.product_classification = false) :
    completenessFindings r = [⟨"COMPLETENESS", "counterparty_1", Severity.CRITICAL⟩] ∧
    severityWeight Severity.CRITICAL = 10 ∧
    recordAccuracyScore r [] [] = 90 := by
  have hm : isMissing r.counterparty_1 = true := by rw [h1]; rfl
  have huti : r.uti ≠ none := ne_none_of_isMissing_eq_false h2
  have hact : r.action_type ≠ none := ne_none_of_isMissing_eq_false h7
  refine ⟨?_, rfl, ?_⟩
  · simp [completenessFindings, missingFinding, h2, h3, h4, h5, h6, h7, h8, h9, h10,
      h11, h12, h13, h14, hm]
  · unfold recordAccuracyScore recordTotalPenalty findingsPenalty
    rw [if_neg huti, if_pos h1, if_neg hact]
    norm_num

/-- A record populated everywhere relevant except counterparty_1, which is
NULL. -/
def missingCp1Record : EmirRecord :=
  { uti := some "UTI0001", report_tracking_number := some "RTN0001",
    counterparty_2 := some "LEI22222222222222222", 
    report_submitting_entity_id := some "LEI33333333333333333",
    entity_responsible_reporting := some "LEI44444444444444444",
    action_type := some "NEW", event_type := some "TRADE",
    event_date := some 0, execution_timestamp := some 0,
    direction := some "BUY", isin := some "XS0000000001",
    asset_class := some "EQUITY", product_classification := some "CFI000" }

/-- Witness for C5 on `missingCp1Record`. -/
theorem c5_missing_counterparty_amended_witness :
    completenessFindings missingCp1Record
      = [⟨"COMPLETENESS", "counterparty_1", Severity.CRITICAL⟩] ∧
    severityWeight Severity.CRITICAL = 10 ∧
    recordAccuracyScore missingCp1Record [] [] = 90 :=
  c5_missing_counterparty_amended missingCp1Record rfl rfl rfl rfl rfl rfl rfl rfl
    rfl rfl rfl rfl rfl rfl

/-- The same record, but with counterparty_1 present as the empty string
instead of NULL. -/
def emptyCp1Record : EmirRecord :=
  { missingCp1Record with counterparty_1 := some "" }

/-- C5 counterexample: with counterparty_1 equal to the empty string
(missing in the claim's sense of "absent or empty"), the completeness
validator still emits exactly one CRITICAL finding, but the record-level
score of the `emir_record_scores` query stays at 100 — not 90 as the
claim requires — because the query's penalty term tests `IS NULL` only. -/
theorem c5_empty_counterparty_counterexample :
    emptyCp1Record.counterparty_1 = some "" ∧
    completenessFindings emptyCp1Record
      = [⟨"COMPLETENESS", "counterparty_1", Severity.CRITICAL⟩] ∧
    recordAccuracyScore emptyCp1Record [] [] = 100 ∧
    recordAccuracyScore emptyCp1Record [] [] ≠ 90 := by
  have hp : recordTotalPenalty emptyCp1Record (findingsPenalty [])
      (findingsPenalty []) = 0 := by
    unfold recordTotalPenalty findingsPenalty
    simp [emptyCp1Record, missingCp1Record]
  have hs : recordAccuracyScore emptyCp1Record [] [] = 100 := by
    unfold recordAccuracyScore
    rw [hp]
    rw [show (100 : ℚ) - 0 = 100 by ring]
    exact max_eq_right (by norm_num)
  exact ⟨rfl, by decide, hs, by rw [hs]; norm_num⟩

/-- The non-NULL uti values of a batch (`WHERE uti IS NOT NULL`). -/
def utiValues (rs : List EmirRecord) : List String :=
  rs.filterMap (fun r => r.uti)

/-- The UTI uniqueness query (guide lines 319-325):
`SELECT uti, COUNT(*) ... GROUP BY uti HAVING COUNT(*) > 1` over the
non-NULL uti values of the whole batch; each output row is the pair
`(uti, duplicate_count)`. -/
def dupUtiGroups (rs : List EmirRecord) : List (String × Nat) :=
  ((utiValues rs).dedup.map (fun u => (u, (utiValues rs).count u))).filter
    (fun p => 1 < p.2)

/-- The uti of the record at position `i` of the batch. -/
def utiAt (rs : List EmirRecord) (i : Nat) : Option String :=
  (rs.get? i).bind (fun r => r.uti)

/-- The duplicate findings as the claim describes them (spec-side
definition, for comparison with `dupUtiGroups`): one finding per
occurrence beyond the first of a uti value, carrying the position of the
flagged record — so for two records sharing a value, a single finding
attributed to the second occurrence. -/
def claimDupFindings (rs : List EmirRecord) : List (String × Nat) :=
  (List.range rs.length).filterMap (fun i =>
    match utiAt rs i with
    | some u =>
        if (List.range i).any (fun j => utiAt rs j == some u) then some (u, i)
        else none
    | none => none)

/-- Modelled from the spec: the severity of a duplicate-UTI finding; the
guide's query assigns none, spec §4.3 fixes MAJOR. -/
def dupFindingSeverity : Severity := Severity.MAJOR

/-- A batch of two records sharing the uti "DUP1". -/
def dupBatch : List EmirRecord :=
  [{ uti := some "DUP1" }, { uti := some "DUP1" }]

/-- C6 counterexample: on a batch whose two records share uti "DUP1", the
uniqueness query emits the single group row ("DUP1", 2) — the value with
its occurrence count — whereas the claim describes a single finding
attributed to the second occurrence (position 1); the emitted row carries
no record attribution, so the claim as stated is false on this batch. -/
theorem c6_duplicate_uti_counterexample :
    dupUtiGroups dupBatch = [("DUP1", 2)] ∧
    claimDupFindings dupBatch = [("DUP1", 1)] ∧
    dupUtiGroups dupBatch ≠ claimDupFindings dupBatch := by
  refine ⟨by decide, by decide, by decide⟩

/-- C6 amended: UTI uniqueness is checked globally across the whole batch;
when exactly two records share a uti value `u`, the duplicate check emits
exactly one finding for `u` — the group row `(u, 2)` referencing the
duplicate group, not attributed to either individual occurrence — and no
record, in particular not the first occurrence, is individually flagged;
the finding's severity is MAJOR. -/
theorem c6_duplicate_uti_amended (rs : List EmirRecord) (u : String)
    (hcount : (utiValues rs).count u = 2) :
    (u, 2) ∈ dupUtiGroups rs ∧
    ((dupUtiGroups rs).map Prod.fst).Nodup ∧
    (∀ p ∈ dupUtiGroups rs, p.1 = u → p = (u, 2)) ∧
    dupFindingSeverity = Severity.MAJOR := by
  have humem : u ∈ utiValues rs := by
    have hpos : 0 < (utiValues rs).count u := by rw [hcount]; norm_num
    exact List.count_pos_iff.mp hpos
  have hdedup : u ∈ (utiValues rs).dedup := List.mem_dedup.mpr humem
  have hmap : (u, 2) ∈ (utiValues rs).dedup.map
      (fun v => (v, (utiValues rs).count v)) := by
    apply List.mem_map.mpr
    exact ⟨u, hdedup, by rw [hcount]⟩
  refine ⟨List.mem_filter.mpr ⟨hmap, by norm_num⟩, ?_, ?_, rfl⟩
  · have hfst : ((utiValues rs).dedup.map
        (fun v => (v, (utiValues rs).count v))).map Prod.fst
          = (utiValues rs).dedup := by
      have hcomp : (Prod.fst ∘ fun v => (v, (utiValues rs).count v)) = id := rfl
      rw [List.map_map, hcomp, List.map_id]
    have hsub : (dupUtiGroups rs).map Prod.fst |>.Sublist
        (((utiValues rs).dedup.map (fun v => (v, (utiValues rs).count v))).map
          Prod.fst) :=
      List.Sublist.map Prod.fst (List.filter_sublist _)
    rw [hfst] at hsub
    exact (utiValues rs).nodup_dedup.sublist hsub
  · intro p hp hpu
    rcases List.mem_map.mp (List.mem_filter.mp hp).1 with ⟨v, _, hfv⟩
    have hv : v = u := by rw [← hfv] at hpu; exact hpu
    rw [← hfv, hv, hcount]

/-- Witness for C6 on `dupBatch`. -/
theorem c6_duplicate_uti_amended_witness :
    ("DUP1", 2) ∈ dupUtiGroups dupBatch ∧
    ((dupUtiGroups dupBatch).map Prod.fst).Nodup :=
  ⟨(c6_duplicate_uti_amended dupBatch "DUP1" (by decide)).1,
   (c6_duplicate_uti_amended dupBatch "DUP1" (by decide)).2.1⟩

/-- The three validation phases run by the Step Functions parallel state
(infrastructure design §5, "Phase 2-4: Parallel Execution"). -/
inductive Branch
  | completeness
  | format
  | logical
deriving DecidableEq, Repr

/-- Execution status of one validation branch. -/
inductive BranchStatus
  | idle
  | running
  | ok
  | failed
deriving DecidableEq, Repr

/-- Phase of the whole pipeline run, following the flow of the
infrastructure design §5: profiling, then the parallel validation block,
then scoring, report generation and completion; FAILED is reachable from
the validation block on retry exhaustion. -/
inductive RunPhase
  | profiling
  | validating
  | scoring
  | reporting
  | completed
  | failed
deriving DecidableEq, Repr

/-- State of a pipeline run: the run phase, the status of each validation
branch and its retry count. -/
structure PipelineState where
  phase : RunPhase
  comp : BranchStatus
  fmt : BranchStatus
  logi : BranchStatus
  compRetries : Nat
  fmtRetries : Nat
  logiRetries : Nat
deriving DecidableEq, Repr

def branchStatus (s : PipelineState) : Branch → BranchStatus
  | Branch.completeness => s.comp
  | Branch.format => s.fmt
  | Branch.logical => s.logi

def setBranchStatus (s : PipelineState) (b : Branch) (st : BranchStatus) :
    PipelineState :=
  match b with
  | Branch.completeness => { s with comp := st }
  | Branch.format => { s with fmt := st }
  | Branch.logical => { s with logi := st }

def branchRetries (s : PipelineState) : Branch → Nat
  | Branch.completeness => s.compRetries
  | Branch.format => s.fmtRetries
  | Branch.logical => s.logiRetries

def bumpRetries (s : PipelineState) (b : Branch) : PipelineState :=
  match b with
  | Branch.completeness => { s with compRetries := s.compRetries + 1 }
  | Branch.format => { s with fmtRetries := s.fmtRetries + 1 }
  | Branch.logical => { s with logiRetries := s.logiRetries + 1 }

/-- Observable events of a pipeline run. -/
inductive PipelineStep
  | profilingDone
  | startBranch (b : Branch)
  | branchOk (b : Branch)
  | branchRetry (b : Branch)
  | branchExhausted (b : Branch)
  | enterScoring
  | scoringDone
  | reportingDone
deriving DecidableEq, Repr

/-- One transition of the Step Functions flow described in the
infrastructure design §5: after profiling the three validators run inside
one parallel state ("Phase 2-4: Parallel Execution"), the machine waits
for all three to complete before scoring ("Wait for all 3 to complete"),
each branch is retried up to 3 times with backoff, and a failure after
retry exhaustion sends the whole run to FAILED, which has no outgoing
transitions.  `none` means the event is not enabled in the given state. -/
def applyStep (s : PipelineState) (step : PipelineStep) : Option PipelineState :=
  match step with
  | PipelineStep.profilingDone =>
      if s.phase = RunPhase.profiling then
        some { s with phase := RunPhase.validating }
      else none
  | PipelineStep.startBranch b =>
      if s.phase = RunPhase.validating ∧ branchStatus s b = BranchStatus.idle then
        some (setBranchStatus s b BranchStatus.running)
      else none
  | PipelineStep.branchOk b =>
      if s.phase = RunPhase.validating ∧ branchStatus s b = BranchStatus.running then
        some (setBranchStatus s b BranchStatus.ok)
      else none
  | PipelineStep.branchRetry b =>
      if s.phase = RunPhase.validating ∧ branchStatus s b = BranchStatus.running ∧
          branchRetries s b < 3 then
        some (bumpRetries s b)
      else none
  | PipelineStep.branchExhausted b =>
      if s.phase = RunPhase.validating ∧ branchStatus s b = BranchStatus.running ∧
          branchRetries s b = 3 then
        some { setBranchStatus s b BranchStatus.failed with phase := RunPhase.failed }
      else none
  | PipelineStep.enterScoring =>
      if s.phase = RunPhase.validating ∧ s.comp = BranchStatus.ok ∧
          s.fmt = BranchStatus.ok ∧ s.logi = BranchStatus.ok then
        some { s with phase := RunPhase.scoring }
      else none
  | PipelineStep.scoringDone =>
      if s.phase = RunPhase.scoring then
        some { s with phase := RunPhase.reporting }
      else none
  | PipelineStep.reportingDone =>
      if s.phase = RunPhase.reporting then
        some { s with phase := RunPhase.completed }
      else none

/-- Initial state of a run: profiling, all branches idle, no retries. -/
def initState : PipelineState :=
  ⟨RunPhase.profiling, BranchStatus.idle, BranchStatus.idle, BranchStatus.idle, 0, 0, 0⟩

/-- Execute a list of events from a state; `none` when some event is not
enabled where it occurs. -/
def runPipeline (s : PipelineState) (steps : List PipelineStep) :
    Option PipelineState :=
  steps.foldlM applyStep s

theorem setBranchStatus_phase (s : PipelineState) (b : Branch) (st : BranchStatus) :
    (setBranchStatus s b st).phase = s.phase := by
  cases b <;> rfl

theorem bumpRetries_phase (s : PipelineState) (b : Branch) :
    (bumpRetries s b).phase = s.phase := by
  cases b <;> rfl

/-- The barrier invariant: from the scoring phase onwards, every
validation branch has succeeded. -/
def barrierInv (s : PipelineState) : Prop :=
  (s.phase = RunPhase.scoring ∨ s.phase = RunPhase.reporting ∨
    s.phase = RunPhase.completed) →
  s.comp = BranchStatus.ok ∧ s.fmt = BranchStatus.ok ∧ s.logi = BranchStatus.ok

theorem applyStep_preserves (s s' : PipelineState) (step : PipelineStep)
    (hinv : barrierInv s) (h : applyStep s step = some s') : barrierInv s' := by
  cases step <;> simp only [applyStep] at h <;> split at h <;>
    (try exact Option.noConfusion h) <;>
    rename_i hcond <;> injection h with h' <;> subst h'
  · intro hc
    simp at hc
  · intro hc
    simp [setBranchStatus_phase, hcond.1] at hc
  · intro hc
    simp [setBranchStatus_phase, hcond.1] at hc
  · intro hc
    simp [bumpRetries_phase, hcond.1] at hc
  · intro hc
    simp at hc
  · intro _
    exact ⟨hcond.2.1, hcond.2.2.1, hcond.2.2.2⟩
  · intro _
    exact hinv (Or.inl hcond)
  · intro _
    exact hinv (Or.inr (Or.inl hcond))

theorem runPipeline_inv (steps : List PipelineStep) :
    ∀ s0 s, barrierInv s0 → runPipeline s0 steps = some s → barrierInv s := by
  induction steps with
  | nil =>
      intro s0 s h0 h
      simp only [runPipeline, List.foldlM_nil] at h
      injection h with h'
      rw [← h']
      exact h0
  | cons stp rest ih =>
      intro s0 s h0 h
      simp only [runPipeline, List.foldlM_cons] at h
      cases happ : applyStep s0 stp with
      | none => rw [happ] at h; exact Option.noConfusion h
      | some s1 =>
          rw [happ] at h
          exact ih s1 s (applyStep_preserves s0 s1 stp h0 happ) h

/-- A complete run of the modelled machine in which the Format branch
starts immediately after profiling, while the Completeness branch has not
yet completed (it has not even started). -/
def formatFirstTrace : List PipelineStep :=
  [PipelineStep.profilingDone,
   PipelineStep.startBranch Branch.format,
   PipelineStep.startBranch Branch.completeness,
   PipelineStep.startBranch Branch.logical,
   PipelineStep.branchOk Branch.format,
   PipelineStep.branchOk Branch.completeness,
   PipelineStep.branchOk Branch.logical,
   PipelineStep.enterScoring]

/-- The state reached by `formatFirstTrace`. -/
def scoringState : PipelineState :=
  ⟨RunPhase.scoring, BranchStatus.ok, BranchStatus.ok, BranchStatus.ok, 0, 0, 0⟩

/-- C3 counterexample: the Step Functions flow of the infrastructure
design runs Completeness, Format and Logical in one parallel state, so
`formatFirstTrace` is a valid run reaching SCORING in which the Format
branch starts (position 1) strictly before the Completeness branch
completes (position 5) — the claim's "Completeness completes before the
Format and Logical branches start" fails on this run. -/
theorem c3_ordering_counterexample :
    runPipeline initState formatFirstTrace = some scoringState ∧
    formatFirstTrace.indexOf (PipelineStep.startBranch Branch.format) = 1 ∧
    formatFirstTrace.indexOf (PipelineStep.branchOk Branch.completeness) = 5 := by
  refine ⟨by decide, by decide, by decide⟩

/-- C3 amended: in the modelled pipeline, Completeness, Format and Logical
run in parallel after profiling; every run that reaches SCORING (or any
later phase) has all three branches reporting success (the
synchronization barrier); a branch failure after retry exhaustion sends
the run to FAILED; and FAILED is terminal, so SCORING is never entered
after a failure. -/
theorem c3_pipeline_amended :
    (∀ steps s, runPipeline initState steps = some s →
      (s.phase = RunPhase.scoring ∨ s.phase = RunPhase.reporting ∨
        s.phase = RunPhase.completed) →
      s.comp = BranchStatus.ok ∧ s.fmt = BranchStatus.ok ∧
        s.logi = BranchStatus.ok) ∧
    (∀ s b s', applyStep s (PipelineStep.branchExhausted b) = some s' →
      s'.phase = RunPhase.failed) ∧
    (∀ s, s.phase = RunPhase.failed → ∀ step, applyStep s step = none) := by
  refine ⟨?_, ?_, ?_⟩
  · intro steps s hrun
    have h0 : barrierInv initState := by
      intro hc
      simp [initState] at hc
    exact runPipeline_inv steps initState s h0 hrun
  · intro s b s' h
    simp only [applyStep] at h
    split at h
    · injection h with h'
      rw [← h']
    · exact Option.noConfusion h
  · intro s hf step
    cases step <;> simp [applyStep, hf]

/-- Witness for C3: applying the barrier theorem to the concrete run
`formatFirstTrace`. -/
theorem c3_pipeline_amended_witness :
    scoringState.comp = BranchStatus.ok ∧ scoringState.fmt = BranchStatus.ok ∧
      scoringState.logi = BranchStatus.ok :=
  c3_pipeline_amended.1 formatFirstTrace scoringState (by decide) (Or.inl rfl)
